import Mathlib

/-!
Shallow embedding of the Project Sentinel browser client
(`src/dashboard-ui/src/App.js`, `src/dashboard-ui/src/components/SearchResults.jsx`,
`src/dashboard-ui/src/components/EntityProfilePage.jsx`, `src/unnamed/part_000`,
`src/index.html`).

The client is single-threaded and event-driven: user intents and network
response deliveries are modelled as events, component state updates as pure
functions on explicit state records, and the asynchronous `axios` calls as a
list of in-flight requests recorded on the state, whose responses are
delivered by later events.  React component mounting is modelled explicitly:
the `SearchResults` child component's `useState` state exists exactly while
its render condition in the parent holds, and is re-initialised whenever the
condition turns from false to true.
-/

namespace Sentinel

/-- One sanction-program record of an entity profile
(`entity.sanctions[i]` in `EntityProfilePage.jsx`). -/
structure Sanction where
  program : String
  sanctioning_body : String
deriving DecidableEq, Repr

/-- The expanded entity record returned by `GET /v1/entity/{id}`. -/
structure EntityProfile where
  id : String
  name : String
  category : String
  source : String
  aliases : List String
  sanctions : List Sanction
deriving DecidableEq, Repr

/-- One candidate match returned by `POST /v1/screen`.  The identifier may be
carried in either `entity_id` or `id`; an absent JSON field is `none`. -/
structure Match where
  entity_id : Option String
  id : Option String
  name : String
  type : String
  source : String
  aliases : List String
deriving DecidableEq, Repr

/-- JavaScript whitespace as far as this model needs it: the ASCII
whitespace characters JS `String.prototype.trim` removes. -/
def isJsSpace (c : Char) : Bool :=
  c = ' ' || c = '\t' || c = '\n' || c = '\r'

/-- JavaScript `String.prototype.trim`: strip leading and trailing
whitespace.  Defined by structural recursion over the character list so it
evaluates inside the kernel. -/
def jsTrim (s : String) : String :=
  String.mk (((s.data.dropWhile isJsSpace).reverse.dropWhile isJsSpace).reverse)

/-- JavaScript truthiness restricted to the values that occur here:
`undefined`/`null` (`none`) and strings, where only the empty string is falsy. -/
def truthy : Option String → Bool
  | none => false
  | some s => s != ""

/-- JavaScript `a || b` on such values: `b` whenever `a` is falsy. -/
def jsOr (a b : Option String) : Option String :=
  if truthy a then a else b

/-- JavaScript string coercion in a template literal: `undefined` renders as
the text "undefined". -/
def jsStr : Option String → String
  | none => "undefined"
  | some s => s

/-- The identifier passed to `handleResultClick` by a result card's onClick:
`result.entity_id || result.id` (SearchResults.jsx line 57). -/
def clickedId (m : Match) : Option String :=
  jsOr m.entity_id m.id

/-- Backend base URL, resolved from `process.env.NODE_ENV`
(App.js lines 7-9 and SearchResults.jsx lines 6-8, identical text). -/
def API_BASE_URL (env : String) : String :=
  if env = "production" then "https://project-sentinel-2.onrender.com"
  else "http://localhost:8000"

/-- An in-flight `POST /v1/screen` request: its URL and its JSON body's
`entity_name` field. -/
structure ScreenRequest where
  url : String
  entity_name : String
deriving DecidableEq, Repr

/-- Outcome of one network call as seen by the `try`/`catch`: a parsed
success payload, or any failure (network error or non-2xx status). -/
inductive FetchOutcome (α : Type) where
  | ok (data : α)
  | fail
deriving DecidableEq, Repr

/-- The local `useState` state of the `SearchResults` component, plus the
URLs of its in-flight `GET /v1/entity/...` requests. -/
structure DetailState where
  selectedEntity : Option EntityProfile
  loading : Bool
  error : Option String
  pendingEntity : List String
deriving DecidableEq, Repr

/-- Initial `useState` values of `SearchResults` on mount. -/
def DetailState.init : DetailState :=
  { selectedEntity := none, loading := false, error := none, pendingEntity := [] }

/-- The synchronous part of `handleResultClick(entityId)` (SearchResults.jsx
lines 35-39): set loading, clear the error, start the GET request. -/
def handleResultClick (env : String) (entityId : Option String) (d : DetailState) :
    DetailState :=
  { d with loading := true, error := none,
           pendingEntity :=
             d.pendingEntity ++ [API_BASE_URL env ++ "/v1/entity/" ++ jsStr entityId] }

/-- The continuation of `handleResultClick` once its response arrives
(SearchResults.jsx lines 40-46): `then` stores the entity, `catch` stores the
error text, `finally` clears loading. -/
def applyDetailResponse (o : FetchOutcome EntityProfile) (d : DetailState) : DetailState :=
  match o with
  | .ok e => { d with selectedEntity := some e, loading := false }
  | .fail => { d with error := some "Failed to fetch entity details", loading := false }

/-- What the `SearchResults` component puts on screen. -/
structure RenderedResults where
  heading : Bool
  cards : List Match
  detailLoading : Bool
  detailError : Option String
  profile : Option EntityProfile
deriving DecidableEq, Repr

/-- The render body of `SearchResults` (SearchResults.jsx lines 49-77):
`if (!results || results.length === 0) return null;` then the "Results"
heading, one card per match, the detail loading indicator, the detail error,
and the selected entity's profile page. -/
def renderSearchResults (results : Option (List Match)) (d : DetailState) :
    Option RenderedResults :=
  match results with
  | none => none
  | some rs =>
    if rs.length = 0 then none
    else some { heading := true, cards := rs, detailLoading := d.loading,
                detailError := d.error, profile := d.selectedEntity }

/-- `performScreen` of `src/index.html` (lines 30-47) up to issuing the
request: trim the input field's value, refuse a blank value with no network
call, otherwise POST the trimmed text to the relative URL `/v1/screen`. -/
def performScreen (value : String) : Option ScreenRequest :=
  let entityName := jsTrim value
  if entityName = "" then none
  else some { url := "/v1/screen", entity_name := entityName }

/-! ### The dashboard-ui entry (`src/dashboard-ui/src/App.js`) -/

/-- The `useState` state of the dashboard `App` component (App.js lines
12-16), plus its in-flight `POST /v1/screen` requests in submission order. -/
structure AppState where
  searchTerm : String
  results : List Match
  loading : Bool
  error : String
  searched : Bool
  pending : List ScreenRequest
deriving DecidableEq, Repr

/-- The synchronous part of App.js `handleSearch` (lines 18-30): blank-guard
on the trimmed search term, then set loading, clear the error and the
results, mark searched, and POST `{ entity_name: searchTerm }` — the raw,
untrimmed state value — to the environment-derived URL. -/
def handleSearch (env : String) (s : AppState) : AppState :=
  if jsTrim s.searchTerm = "" then s
  else
    { s with loading := true, error := "", results := [], searched := true,
             pending := s.pending ++
               [{ url := API_BASE_URL env ++ "/v1/screen", entity_name := s.searchTerm }] }

/-- The continuation of App.js `handleSearch` once a response arrives (lines
31-38): `then` stores `response.data.matches || []`, `catch` stores the error
text, `finally` clears loading.  The handler holds no token: it runs the same
way no matter which outstanding request the response answers. -/
def applyScreenOutcome (o : FetchOutcome (Option (List Match))) (s : AppState) : AppState :=
  match o with
  | .ok ms => { s with results := ms.getD [], loading := false }
  | .fail =>
    { s with
      error := "Search failed. Please check the connection and try again.",
      loading := false }

/-- The render condition of `SearchResults` in App.js line 70:
`!loading && !error && results.length > 0`. -/
def mountedApp (s : AppState) : Bool :=
  !s.loading && s.error == "" && decide (s.results.length > 0)

/-- React reconciliation of the `SearchResults` child at its tree position:
if its render condition holds it is mounted, keeping its state if it was
already mounted and starting from `DetailState.init` otherwise; if the
condition fails it is unmounted and its `useState` state is dropped. -/
def reconcile (mounted : Bool) (d : Option DetailState) : Option DetailState :=
  if mounted then some (d.getD DetailState.init) else none

/-- Whole-page state of the dashboard entry: the `App` component state and
the `SearchResults` child state (present exactly while mounted). -/
structure UIState where
  app : AppState
  detail : Option DetailState
deriving DecidableEq, Repr

/-- Sanity invariant tying the two: the child state is held exactly while the
child's render condition in `App` holds. -/
def WF (u : UIState) : Prop :=
  u.detail.isSome = mountedApp u.app

/-- Events driving the dashboard page: typing in the input, pressing Enter
(App.js `handleKeyPress`, which calls `handleSearch` unconditionally),
clicking the Scan button (which is `disabled={loading}`), delivery of the
`i`-th outstanding screen response, clicking the card of match `m`, and
delivery of the `i`-th outstanding entity-detail response. -/
inductive UIEvent where
  | input (s : String)
  | enterKey
  | click
  | screenDone (i : Nat) (o : FetchOutcome (Option (List Match)))
  | selectMatch (m : Match)
  | detailDone (i : Nat) (o : FetchOutcome EntityProfile)
deriving DecidableEq, Repr

/-- One event step of the dashboard page.  Every `App`-state change is
followed by React reconciliation of the `SearchResults` child. -/
def stepApp (env : String) (u : UIState) : UIEvent → UIState
  | .input q =>
    let a := { u.app with searchTerm := q }
    { app := a, detail := reconcile (mountedApp a) u.detail }
  | .enterKey =>
    let a := handleSearch env u.app
    { app := a, detail := reconcile (mountedApp a) u.detail }
  | .click =>
    let a := if u.app.loading then u.app else handleSearch env u.app
    { app := a, detail := reconcile (mountedApp a) u.detail }
  | .screenDone i o =>
    if i < u.app.pending.length then
      let a := applyScreenOutcome o { u.app with pending := u.app.pending.eraseIdx i }
      { app := a, detail := reconcile (mountedApp a) u.detail }
    else u
  | .selectMatch m =>
    match u.detail with
    | some d => { app := u.app, detail := some (handleResultClick env (clickedId m) d) }
    | none => u
  | .detailDone i o =>
    match u.detail with
    | some d =>
      if i < d.pendingEntity.length then
        { app := u.app,
          detail := some (applyDetailResponse o
            { d with pendingEntity := d.pendingEntity.eraseIdx i }) }
      else u
    | none => u

/-- Run a list of events from a starting page state. -/
def runApp (env : String) (u : UIState) (es : List UIEvent) : UIState :=
  es.foldl (stepApp env) u

/-- What the dashboard page puts on screen (App.js lines 62-73). -/
structure Rendered where
  loadingIndicator : Bool
  errorMessage : Option String
  noMatchesMsg : Bool
  resultsSection : Option RenderedResults
deriving DecidableEq, Repr

/-- The render body of the dashboard `App` (App.js lines 62-73): a loading
line while loading, the error paragraph when `error` is truthy, the
"No matches found" line when an error-free finished search is empty, and the
`SearchResults` section under its render condition. -/
def renderApp (u : UIState) : Rendered :=
  { loadingIndicator := u.app.loading
    errorMessage := if u.app.error = "" then none else some u.app.error
    noMatchesMsg := !u.app.loading && u.app.error == "" && u.app.searched
      && u.app.results.isEmpty
    resultsSection :=
      if mountedApp u.app then
        match u.detail with
        | some d => renderSearchResults (some u.app.results) d
        | none => none
      else none }

/-! ### The variant entry (`src/unnamed/part_000`) -/

/-- The `useState` state of the variant `App` component (part_000 lines
50-54), plus its in-flight screen requests. -/
structure VAppState where
  query : String
  results : List Match
  searched : Bool
  loading : Bool
  error : Option String
  pending : List ScreenRequest
deriving DecidableEq, Repr

/-- The synchronous part of the variant `handleSearch` (part_000 lines
56-61): blank-guard on the trimmed query, then set loading, clear the error,
and POST `{ entity_name: query }` to the hard-coded URL
`http://localhost:8000/v1/screen`.  Unlike App.js, it does not clear
`results` when a new search starts. -/
def vHandleSearch (s : VAppState) : VAppState :=
  if jsTrim s.query = "" then s
  else
    { s with loading := true, error := none,
             pending := s.pending ++
               [{ url := "http://localhost:8000/v1/screen", entity_name := s.query }] }

/-- The continuation of the variant `handleSearch` on response arrival
(part_000 lines 62-69): `then` stores `response.data.matches` and marks
searched, `catch` stores "Search failed", `finally` clears loading. -/
def vApplyScreenOutcome (o : FetchOutcome (List Match)) (s : VAppState) : VAppState :=
  match o with
  | .ok ms => { s with results := ms, searched := true, loading := false }
  | .fail => { s with error := some "Search failed", loading := false }

/-- The render condition of `SearchResults` in part_000 line 89:
`results.length > 0` — independent of `loading` and `error`. -/
def vMounted (s : VAppState) : Bool :=
  decide (s.results.length > 0)

/-- Whole-page state of the variant entry. -/
structure VUIState where
  app : VAppState
  detail : Option DetailState
deriving DecidableEq, Repr

/-- Events driving the variant page.  Its Scan button is never disabled and
its Enter handler calls `handleSearch` unconditionally, so a single submit
event covers both. -/
inductive VEvent where
  | input (s : String)
  | submit
  | screenDone (i : Nat) (o : FetchOutcome (List Match))
  | selectMatch (m : Match)
  | detailDone (i : Nat) (o : FetchOutcome EntityProfile)
deriving DecidableEq, Repr

/-- One event step of the variant page, with the same React reconciliation
of the shared `SearchResults` child against its (different) render
condition. -/
def stepV (env : String) (u : VUIState) : VEvent → VUIState
  | .input q =>
    let a := { u.app with query := q }
    { app := a, detail := reconcile (vMounted a) u.detail }
  | .submit =>
    let a := vHandleSearch u.app
    { app := a, detail := reconcile (vMounted a) u.detail }
  | .screenDone i o =>
    if i < u.app.pending.length then
      let a := vApplyScreenOutcome o { u.app with pending := u.app.pending.eraseIdx i }
      { app := a, detail := reconcile (vMounted a) u.detail }
    else u
  | .selectMatch m =>
    match u.detail with
    | some d => { app := u.app, detail := some (handleResultClick env (clickedId m) d) }
    | none => u
  | .detailDone i o =>
    match u.detail with
    | some d =>
      if i < d.pendingEntity.length then
        { app := u.app,
          detail := some (applyDetailResponse o
            { d with pendingEntity := d.pendingEntity.eraseIdx i }) }
      else u
    | none => u

/-- Run a list of events from a starting variant-page state. -/
def runV (env : String) (u : VUIState) (es : List VEvent) : VUIState :=
  es.foldl (stepV env) u

/-- The render body of the variant `App` (part_000 lines 85-89): a scanning
line while loading, the error paragraph when `error` is set, the
"No matches found" line for a loading-free finished empty search, and the
`SearchResults` section whenever `results` is non-empty. -/
def renderV (u : VUIState) : Rendered :=
  { loadingIndicator := u.app.loading
    errorMessage := u.app.error
    noMatchesMsg := u.app.searched && !u.app.loading && u.app.results.isEmpty
    resultsSection :=
      if vMounted u.app then
        match u.detail with
        | some d => renderSearchResults (some u.app.results) d
        | none => none
      else none }

/-! ### Concrete fixtures for counterexample traces -/

/-- A concrete match carried under the `entity_id` spelling. -/
def mAlpha : Match :=
  { entity_id := some "E1", id := none, name := "Alpha Corp", type := "Company",
    source := "OFAC", aliases := [] }

/-- A second, distinct concrete match. -/
def mBeta : Match :=
  { entity_id := some "E2", id := none, name := "Beta Ltd", type := "Company",
    source := "EU", aliases := [] }

/-- The entity profile behind `mAlpha`. -/
def epAlpha : EntityProfile :=
  { id := "E1", name := "Alpha Corp", category := "Company", source := "OFAC",
    aliases := ["ALFA"], sanctions := [{ program := "SDN", sanctioning_body := "OFAC" }] }

/-- Fresh dashboard page state. -/
def u0 : UIState :=
  { app := { searchTerm := "", results := [], loading := false, error := "",
             searched := false, pending := [] },
    detail := none }

/-- Fresh variant page state. -/
def v0 : VUIState :=
  { app := { query := "", results := [], searched := false, loading := false,
             error := none, pending := [] },
    detail := none }

/-- A match carrying the same identifier as `mAlpha` under the `id`
spelling instead of `entity_id`. -/
def mAlphaId : Match :=
  { entity_id := none, id := some "E1", name := "Alpha Corp", type := "Company",
    source := "OFAC", aliases := [] }

/-- Dashboard trace for the ordering question: submit `q1`, submit `q2`
while `q1` is still in flight (via the Enter key, which is not disabled
during loading), then deliver `q2`'s response first and `q1`'s second. -/
def c1trace : List UIEvent :=
  [.input "q1", .enterKey, .input "q2", .enterKey,
   .screenDone 1 (.ok (some [mBeta])), .screenDone 0 (.ok (some [mAlpha]))]

/-- The first four events of `c1trace`: both submissions, no delivery yet. -/
def c1submits : List UIEvent :=
  [.input "q1", .enterKey, .input "q2", .enterKey]

/-- Variant trace: search `q1`, get `mAlpha`, open its profile, then search
`q2` and let the new search complete. -/
def c3trace : List VEvent :=
  [.input "q1", .submit, .screenDone 0 (.ok [mAlpha]),
   .selectMatch mAlpha, .detailDone 0 (.ok epAlpha),
   .input "q2", .submit, .screenDone 0 (.ok [mBeta])]

/-- Variant trace: a successful search for `q1`, then a failing search. -/
def c5trace : List VEvent :=
  [.input "q1", .submit, .screenDone 0 (.ok [mAlpha]),
   .input "q2", .submit, .screenDone 0 .fail]

/-! ### Helper lemmas -/

/-- On a well-formed page state, React reconciliation with an unchanged
`App` state leaves the child state unchanged. -/
theorem reconcile_of_wf (u : UIState) (h : WF u) :
    reconcile (mountedApp u.app) u.detail = u.detail := by
  unfold WF at h
  cases hd : u.detail with
  | none => rw [hd] at h; simp [reconcile, ← h]
  | some d => rw [hd] at h; simp [reconcile, ← h]

/-- Delivering a screen response while the `SearchResults` child is
unmounted leaves the child either unmounted or freshly re-initialised: its
former state cannot reappear. -/
theorem screenDone_detail_of_none (env : String) (u : UIState) (i : Nat)
    (o : FetchOutcome (Option (List Match))) (hd : u.detail = none) :
    (stepApp env u (.screenDone i o)).detail = none ∨
    (stepApp env u (.screenDone i o)).detail = some DetailState.init := by
  simp only [stepApp]
  split
  · simp only [reconcile, hd, Option.getD]
    split
    · right; rfl
    · left; rfl
  · left; exact hd

/-- A dashboard page state used as a concrete starting point: the query
`"Acme"` typed, nothing else going on. -/
def uAcme : UIState :=
  { app := { searchTerm := "Acme", results := [], loading := false, error := "",
             searched := false, pending := [] },
    detail := none }

/-- A concrete `SearchResults` state with one entity-detail request in
flight. -/
def dPend : DetailState :=
  { selectedEntity := none, loading := true, error := none,
    pendingEntity := ["http://localhost:8000/v1/entity/E1"] }

/-- A concrete dashboard page state holding a successful screening result
(`[mAlpha]` rendered) with the detail request of `dPend` in flight. -/
def uC4 : UIState :=
  { app := { searchTerm := "Acme", results := [mAlpha], loading := false, error := "",
             searched := true, pending := [] },
    detail := some dPend }

/-! ### Claim theorems -/

/-- Claim C1.  The claim says the response of a superseded search request is
discarded regardless of arrival order, so the final state always corresponds
to the latest submitted query.  The code has no request token: evaluating the
dashboard model on the interleaving where `q1` and `q2` are submitted and
`q2`'s response (matches `[mBeta]`) arrives before `q1`'s (matches
`[mAlpha]`) shows both submissions in flight with bodies `q1`, `q2`, and the
final held and rendered result equal to `q1`'s matches, not `q2`'s: the
superseded response overwrites the newer one. -/
theorem c1_stale_response_overwrites_latest :
    (runApp "development" u0 c1submits).app.pending.map
        (fun r => r.entity_name) = ["q1", "q2"] ∧
    (runApp "development" u0 c1trace).app.results = [mAlpha] ∧
    (renderApp (runApp "development" u0 c1trace)).resultsSection.map
        (fun r => r.cards) = some [mAlpha] ∧
    mAlpha ≠ mBeta := by
  refine ⟨by decide, by decide, by decide, by decide⟩

/-- Claim C2.  The claim says every entry point resolves the backend base
URL from the environment configuration and no request goes to a hard-coded
URL.  The `part_000` entry posts to the literal string
`http://localhost:8000/v1/screen` for every submission, which differs from
the URL the configuration resolves to when the environment is
`production`. -/
theorem c2_variant_entry_hardcodes_url :
    (vHandleSearch { query := "Acme", results := [], searched := false,
                     loading := false, error := none, pending := [] }).pending
      = [{ url := "http://localhost:8000/v1/screen", entity_name := "Acme" }] ∧
    API_BASE_URL "production" = "https://project-sentinel-2.onrender.com" ∧
    "http://localhost:8000/v1/screen" ≠ API_BASE_URL "production" ++ "/v1/screen" := by
  refine ⟨by decide, by decide, by decide⟩

/-- Claim C9: if the `results` input of `SearchResults` is absent
(`null`/`undefined`) or an empty list, the component renders nothing at all —
no heading, no detail loading indicator, no detail error, and no previously
selected profile — whatever its internal detail state holds. -/
theorem c9_empty_results_render_nothing (d : DetailState) :
    renderSearchResults none d = none ∧ renderSearchResults (some []) d = none := by
  simp [renderSearchResults]

/-- Claim C10: the fallback `entity_id || id` coalesces on JavaScript
falsiness, so a present-but-falsy `entity_id` (in particular the empty
string, which is falsy) is never selected: the `id` field supplies the
identifier instead. -/
theorem c10_falsy_entity_id_falls_back (m : Match) (h : truthy m.entity_id = false) :
    clickedId m = m.id ∧ truthy (some "") = false := by
  constructor
  · simp [clickedId, jsOr, h]
  · decide

/-- Witness for C10 at a concrete match whose `entity_id` is the empty
string and whose `id` is `"E9"`: the identifier chosen is `some "E9"`. -/
theorem c10_falsy_entity_id_falls_back_witness :
    clickedId { entity_id := some "", id := some "E9", name := "N", type := "T",
                source := "S", aliases := [] } = some "E9" ∧
    truthy (some "") = false := by
  have h := c10_falsy_entity_id_falls_back
    { entity_id := some "", id := some "E9", name := "N", type := "T",
      source := "S", aliases := [] } (by decide)
  exact ⟨h.1, h.2⟩

/-- Claim C7: a match carrying its identifier in `entity_id` and a match
carrying the same non-empty identifier in `id` behave identically on
selection: both click handlers receive that identifier and issue the same
`GET {base}/v1/entity/{identifier}` request. -/
theorem c7_identifier_field_aliasing (env v : String) (m₁ m₂ : Match) (d : DetailState)
    (hv : v ≠ "") (h₁ : m₁.entity_id = some v)
    (h₂ : m₂.entity_id = none) (h₂' : m₂.id = some v) :
    clickedId m₁ = some v ∧ clickedId m₂ = some v ∧
    handleResultClick env (clickedId m₁) d = handleResultClick env (clickedId m₂) d ∧
    (handleResultClick env (clickedId m₁) d).pendingEntity
      = d.pendingEntity ++ [API_BASE_URL env ++ "/v1/entity/" ++ v] := by
  have e₁ : clickedId m₁ = some v := by
    simp [clickedId, jsOr, truthy, h₁, hv]
  have e₂ : clickedId m₂ = some v := by
    simp [clickedId, jsOr, truthy, h₂, h₂']
  refine ⟨e₁, e₂, by rw [e₁, e₂], ?_⟩
  rw [e₁]
  simp [handleResultClick, jsStr]

/-- Witness for C7: `mAlpha` (identifier `"E1"` under `entity_id`) and
`mAlphaId` (the same identifier under `id`) both select entity `E1` and
issue the same production request. -/
theorem c7_identifier_field_aliasing_witness :
    clickedId mAlpha = some "E1" ∧ clickedId mAlphaId = some "E1" ∧
    handleResultClick "production" (clickedId mAlpha) DetailState.init
      = handleResultClick "production" (clickedId mAlphaId) DetailState.init ∧
    (handleResultClick "production" (clickedId mAlpha) DetailState.init).pendingEntity
      = DetailState.init.pendingEntity
        ++ [API_BASE_URL "production" ++ "/v1/entity/" ++ "E1"] :=
  c7_identifier_field_aliasing "production" "E1" mAlpha mAlphaId DetailState.init
    (by decide) (by decide) (by decide) (by decide)

/-- Claim C3, counterexample.  In the `part_000` entry the `SearchResults`
child stays mounted across a new search (its render condition is only
`results.length > 0` and the old results are not cleared), so after
searching `q1`, opening `mAlpha`'s profile, then searching `q2` to
completion, the entity profile selected under the first search is still held
and still rendered next to the second search's results. -/
theorem c3_variant_stale_profile_persists :
    (runV "development" v0 c3trace).app.results = [mBeta] ∧
    (runV "development" v0 c3trace).detail.map (fun d => d.selectedEntity)
      = some (some epAlpha) ∧
    (renderV (runV "development" v0 c3trace)).resultsSection.map (fun r => r.profile)
      = some (some epAlpha) := by
  refine ⟨by decide, by decide, by decide⟩

/-- Claim C3 as amended: in the dashboard entry, submitting a new non-empty
search unmounts the `SearchResults` child (results are cleared and loading
is set), discarding any held entity profile, and after the next screen
response is delivered the child is either still unmounted or freshly
initialised — never holding a profile from before the submission.  In the
`part_000` entry the detail state instead survives a new search. -/
theorem c3_dashboard_new_search_resets_detail (env : String) (u : UIState) (i : Nat)
    (o : FetchOutcome (Option (List Match))) (h : ¬ jsTrim u.app.searchTerm = "") :
    (stepApp env u .enterKey).detail = none ∧
    ((stepApp env (stepApp env u .enterKey) (.screenDone i o)).detail = none ∨
     (stepApp env (stepApp env u .enterKey) (.screenDone i o)).detail
       = some DetailState.init) := by
  have h1 : (stepApp env u .enterKey).detail = none := by
    simp [stepApp, handleSearch, h, mountedApp, reconcile]
  exact ⟨h1, screenDone_detail_of_none env _ i o h1⟩

/-- Witness for C3's amended theorem at the concrete state `uAcme`. -/
theorem c3_dashboard_new_search_resets_detail_witness :
    (stepApp "development" uAcme .enterKey).detail = none ∧
    ((stepApp "development" (stepApp "development" uAcme .enterKey)
        (.screenDone 0 (.ok (some [mBeta])))).detail = none ∨
     (stepApp "development" (stepApp "development" uAcme .enterKey)
        (.screenDone 0 (.ok (some [mBeta])))).detail = some DetailState.init) :=
  c3_dashboard_new_search_resets_detail "development" uAcme 0 (.ok (some [mBeta]))
    (by decide)

/-- Claim C4: while the dashboard page holds a successful screening result,
a failing entity-detail fetch leaves the whole `App` state (in particular
the held match list) untouched, only records the detail error (clearing the
detail loading flag and the delivered request), and the match list stays
rendered with the same cards while the detail error is shown. -/
theorem c4_detail_failure_preserves_results (env : String) (u : UIState)
    (d : DetailState) (i : Nat) (hd : u.detail = some d)
    (hi : i < d.pendingEntity.length) (hm : mountedApp u.app = true) :
    (stepApp env u (.detailDone i .fail)).app = u.app ∧
    (stepApp env u (.detailDone i .fail)).detail
      = some { d with
               error := some "Failed to fetch entity details",
               loading := false,
               pendingEntity := d.pendingEntity.eraseIdx i } ∧
    (renderApp (stepApp env u (.detailDone i .fail))).resultsSection.map (fun r => r.cards)
      = some u.app.results ∧
    (renderApp (stepApp env u (.detailDone i .fail))).resultsSection.map
        (fun r => r.profile) = some d.selectedEntity ∧
    (renderApp (stepApp env u (.detailDone i .fail))).resultsSection.map
        (fun r => r.detailError) = some (some "Failed to fetch entity details") := by
  have hstep : stepApp env u (.detailDone i .fail)
      = { app := u.app,
          detail := some
            { d with
              error := some "Failed to fetch entity details",
              loading := false,
              pendingEntity := d.pendingEntity.eraseIdx i } } := by
    simp [stepApp, hd, hi, applyDetailResponse]
  have hlen : ¬ u.app.results.length = 0 := by
    simp [mountedApp, Bool.and_eq_true, decide_eq_true_iff] at hm
    omega
  rw [hstep]
  simp [renderApp, hm, renderSearchResults, hlen]

/-- Witness for C4 at the concrete state `uC4` (one match held, one detail
request in flight). -/
theorem c4_detail_failure_preserves_results_witness :
    (stepApp "development" uC4 (.detailDone 0 .fail)).app = uC4.app ∧
    (stepApp "development" uC4 (.detailDone 0 .fail)).detail
      = some { dPend with
               error := some "Failed to fetch entity details",
               loading := false,
               pendingEntity := dPend.pendingEntity.eraseIdx 0 } ∧
    (renderApp (stepApp "development" uC4 (.detailDone 0 .fail))).resultsSection.map
        (fun r => r.cards) = some uC4.app.results ∧
    (renderApp (stepApp "development" uC4 (.detailDone 0 .fail))).resultsSection.map
        (fun r => r.profile) = some dPend.selectedEntity ∧
    (renderApp (stepApp "development" uC4 (.detailDone 0 .fail))).resultsSection.map
        (fun r => r.detailError) = some (some "Failed to fetch entity details") :=
  c4_detail_failure_preserves_results "development" uC4 dPend 0 rfl
    (by decide) (by decide)

/-- Claim C5, counterexample.  In the `part_000` entry a failing screen call
does not clear the previously held matches, so after a successful search for
`q1` followed by a failing search for `q2`, the error message and the first
search's match list are rendered side by side. -/
theorem c5_variant_error_shown_with_stale_matches :
    (renderV (runV "development" v0 c5trace)).errorMessage = some "Search failed" ∧
    (renderV (runV "development" v0 c5trace)).resultsSection.map (fun r => r.cards)
      = some [mAlpha] := by
  refine ⟨by decide, by decide⟩

/-- Claim C5 as amended: in the dashboard entry, a submission whose screen
call fails (non-2xx or network failure) ends with the session in the failed
state: the error message is rendered and no match list is rendered, the
matches having been cleared when the submission started.  In the `part_000`
entry an earlier search's matches instead stay rendered alongside the
error. -/
theorem c5_dashboard_screen_failure_no_matches (env q : String) (u : UIState)
    (hq : ¬ jsTrim q = "") (hp : u.app.pending = []) :
    (runApp env u [.input q, .enterKey, .screenDone 0 .fail]).app.error
      = "Search failed. Please check the connection and try again." ∧
    (runApp env u [.input q, .enterKey, .screenDone 0 .fail]).app.results = [] ∧
    (renderApp (runApp env u [.input q, .enterKey, .screenDone 0 .fail])).errorMessage
      = some "Search failed. Please check the connection and try again." ∧
    (renderApp (runApp env u [.input q, .enterKey, .screenDone 0 .fail])).resultsSection
      = none := by
  have hbeq : ("Search failed. Please check the connection and try again." == "")
      = false := by decide
  have hne : ¬ ("Search failed. Please check the connection and try again." : String)
      = "" := by decide
  have hrun : runApp env u [.input q, .enterKey, .screenDone 0 .fail]
      = { app := { searchTerm := q, results := [], loading := false,
                   error := "Search failed. Please check the connection and try again.",
                   searched := true, pending := [] },
          detail := none } := by
    simp [runApp, stepApp, handleSearch, applyScreenOutcome, mountedApp, reconcile,
          hq, hp, hbeq]
  rw [hrun]
  refine ⟨rfl, rfl, ?_, ?_⟩
  · simp [renderApp, hne]
  · simp [renderApp, mountedApp, hbeq]

/-- Witness for C5's amended theorem: a failing search for `"Acme"` from the
fresh page state. -/
theorem c5_dashboard_screen_failure_no_matches_witness :
    (runApp "development" u0 [.input "Acme", .enterKey, .screenDone 0 .fail]).app.error
      = "Search failed. Please check the connection and try again." ∧
    (runApp "development" u0 [.input "Acme", .enterKey, .screenDone 0 .fail]).app.results
      = [] ∧
    (renderApp (runApp "development" u0
        [.input "Acme", .enterKey, .screenDone 0 .fail])).errorMessage
      = some "Search failed. Please check the connection and try again." ∧
    (renderApp (runApp "development" u0
        [.input "Acme", .enterKey, .screenDone 0 .fail])).resultsSection = none :=
  c5_dashboard_screen_failure_no_matches "development" "Acme" u0 (by decide) (by decide)

/-- Claim C6: on blank or whitespace-only input (after trimming) no entry
point issues a network call and the page state is left unchanged: the
dashboard's Enter key and Scan button are no-ops, the `part_000` submit
handler returns its state unchanged, and `performScreen` in `index.html`
issues no request. -/
theorem c6_blank_input_no_request (env q : String) (u : UIState) (s : VAppState)
    (hwf : WF u) (hu : jsTrim u.app.searchTerm = "") (hs : jsTrim s.query = "")
    (hq : jsTrim q = "") :
    stepApp env u .enterKey = u ∧ stepApp env u .click = u ∧
    vHandleSearch s = s ∧ performScreen q = none := by
  have hh : handleSearch env u.app = u.app := by
    simp [handleSearch, hu]
  have hr := reconcile_of_wf u hwf
  refine ⟨?_, ?_, ?_, ?_⟩
  · simp [stepApp, hh, hr]
  · simp [stepApp, hh, hr]
  · simp [vHandleSearch, hs]
  · simp [performScreen, hq]

/-- Witness for C6 from the fresh page states and the whitespace-only
input `" "`. -/
theorem c6_blank_input_no_request_witness :
    stepApp "development" u0 .enterKey = u0 ∧ stepApp "development" u0 .click = u0 ∧
    vHandleSearch v0.app = v0.app ∧ performScreen " " = none :=
  c6_blank_input_no_request "development" " " u0 v0.app
    (by show u0.detail.isSome = mountedApp u0.app; decide) (by decide) (by decide)
    (by decide)

/-- Claim C8, counterexample.  The dashboard `handleSearch` sends
`{ entity_name: searchTerm }` with the raw state value: for the input
`" Acme "` (whose trimmed form `"Acme"` is non-empty) the request body's
`entity_name` is `" Acme "`, not the trimmed text. -/
theorem c8_dashboard_body_not_trimmed :
    (handleSearch "development"
        { searchTerm := " Acme ", results := [], loading := false, error := "",
          searched := false, pending := [] }).pending.map (fun r => r.entity_name)
      = [" Acme "] ∧
    jsTrim " Acme " = "Acme" ∧ ¬ (" Acme " : String) = "Acme" := by
  refine ⟨by decide, by decide, by decide⟩

/-- Claim C8 as amended: for input whose trimmed form is non-empty, the
`index.html` entry sends `entity_name` equal to the trimmed input, while the
dashboard entry sends `entity_name` equal to the raw input (which is
non-empty after trimming but may carry surrounding whitespace). -/
theorem c8_entity_name_per_entry (env q : String) (s : AppState)
    (hq : ¬ jsTrim q = "") (hs : s.searchTerm = q) :
    performScreen q = some { url := "/v1/screen", entity_name := jsTrim q } ∧
    (handleSearch env s).pending
      = s.pending ++ [{ url := API_BASE_URL env ++ "/v1/screen", entity_name := q }] := by
  constructor
  · simp [performScreen, hq]
  · simp [handleSearch, hs, hq]

/-- Witness for C8's amended theorem at the input `" Acme "`. -/
theorem c8_entity_name_per_entry_witness :
    performScreen " Acme "
      = some { url := "/v1/screen", entity_name := jsTrim " Acme " } ∧
    (handleSearch "development"
        { searchTerm := " Acme ", results := [], loading := false, error := "",
          searched := false, pending := [] }).pending
      = ({ searchTerm := " Acme ", results := [], loading := false, error := "",
           searched := false, pending := [] } : AppState).pending
        ++ [{ url := API_BASE_URL "development" ++ "/v1/screen",
              entity_name := " Acme " }] :=
  c8_entity_name_per_entry "development" " Acme "
    { searchTerm := " Acme ", results := [], loading := false, error := "",
      searched := false, pending := [] } (by decide) rfl

end Sentinel
